import Mathlib

/-!
Verification of `prom_exporter.py` (generic Prometheus exporter).

The Python program is shallowly embedded: Python dicts become ordered
association lists, the `prometheus_client` registry and metric objects become
explicit state threaded through the functions, and an uncaught Python
exception becomes a `some e : Option PyErr` component of the result (the
state returned alongside it is the global state at the moment the exception
escapes).  Stdout of the external command is represented by the outcome of
`ast.literal_eval` on it, since that is the only way the program inspects it.
-/

namespace PromExporter

/-- Ordered association list standing for a Python `dict` (Python dicts
preserve insertion order; keys are unique in every state the program builds,
and all operations below agree with `dict` semantics on unique-key lists). -/
abbrev LDict (α : Type) := List (String × α)

/-- `d[k]` lookup (first matching key). -/
def aget {κ α : Type} [DecidableEq κ] (d : List (κ × α)) (k : κ) : Option α :=
  match d with
  | [] => none
  | p :: rest => if p.1 = k then some p.2 else aget rest k

/-- `d[k] = v`: update in place if the key exists (keeping its position),
else append at the end — exactly Python `dict.__setitem__` ordering. -/
def aset {κ α : Type} [DecidableEq κ] (d : List (κ × α)) (k : κ) (v : α) :
    List (κ × α) :=
  if (aget d k).isSome then d.map (fun p => if p.1 = k then (k, v) else p)
  else d ++ [(k, v)]

/-- `d.pop(k)` (the removal part; the returned value is read with `aget`). -/
def apop {κ α : Type} [DecidableEq κ] (d : List (κ × α)) (k : κ) :
    List (κ × α) :=
  match d with
  | [] => []
  | p :: rest => if p.1 = k then apop rest k else p :: apop rest k

/-- `list(d.keys())`. -/
def akeys {κ α : Type} (d : List (κ × α)) : List κ :=
  d.map (fun p => p.1)

/-- Sorted-list equality of two label-name lists, as `prometheus_client`
checks `sorted(labelkwargs) != sorted(self._labelnames)`: multiset equality. -/
def keysMatch (a b : List String) : Bool :=
  a.length == b.length && a.all (fun k => a.count k == b.count k)

/-- Python exceptions that can escape the modelled code. -/
inductive PyErr where
  | keyErr
  | unboundLocalErr
  | valueErr
  | synErr
  | typeErr
deriving DecidableEq, Repr

/-- The log lines the program can emit (identified by call site). -/
inductive LogMsg where
  /-- warning: external command returned error (non-zero exit). -/
  | cmdError
  /-- warning: external command returned unsupported output type. -/
  | unsupportedOutput
  /-- error: invalid combination of metric and labels (set on an existing
  metric object failed). -/
  | invalidCombination
  /-- error: labels mismatch (set on a freshly instantiated metric failed). -/
  | labelsMismatch
  /-- warning: component label renamed to user_defined_component. -/
  | componentRenamed
  /-- error: config file does not have the proper structure / not valid. -/
  | configStructureError
  /-- error: no valid config files to parse. -/
  | noValidConfigs
deriving DecidableEq, Repr

deriving instance DecidableEq for Except

/-- A `prometheus_client.Gauge` object: the name, help and label names fixed
at construction, plus its children (label-value tuple, in label-name order,
mapped to the current value). -/
structure GaugeObj where
  name : String
  helpText : String
  labelNames : List String
  series : List (List String × Rat)
deriving DecidableEq, Repr

/-- A `prometheus_client.Counter` object (same layout; values only grow). -/
structure CounterObj where
  name : String
  helpText : String
  labelNames : List String
  series : List (List String × Nat)
deriving DecidableEq, Repr

/-- The label-value tuple `.labels(**kw)` builds: the value of each label
name in declaration order. -/
def labelValues (labelNames : List String) (kw : LDict String) : List String :=
  labelNames.map (fun n => (aget kw n).getD "")

/-- `g.labels(**kw).set(v)`: `ValueError` when the keyword names do not match
the gauge's label names; otherwise last-write-wins on that child. -/
def gaugeSet (g : GaugeObj) (kw : LDict String) (v : Rat) : Except Unit GaugeObj :=
  if keysMatch (akeys kw) g.labelNames = true then
    Except.ok { g with
      series := aset g.series (labelValues g.labelNames kw) v }
  else Except.error ()

/-- `c.labels(**kw).inc()`: same keyword check; adds 1 (a fresh child starts
at 0, so its first increment yields 1). -/
def counterInc (c : CounterObj) (kw : LDict String) : Except Unit CounterObj :=
  if keysMatch (akeys kw) c.labelNames = true then
    let key := labelValues c.labelNames kw
    Except.ok { c with series := aset c.series key ((aget c.series key).getD 0 + 1) }
  else Except.error ()

/-- The global mutable state of the process:
`registered` is the set of metric names held by the default
`prometheus_client` registry (registration happens inside the `Gauge` /
`Counter` constructors and raises `ValueError` on a duplicate name);
`prom_metrics_list` is the module-global list of gauge objects the program
appends to; `counters` holds the per-job error counter objects (keyed by
their unique names, standing for the Python object references held in each
job's params dict); `log` is the emitted warning/error log. -/
structure St where
  registered : List String
  prom_metrics_list : List GaugeObj
  counters : List CounterObj
  log : List LogMsg
deriving DecidableEq, Repr

/-- The state at interpreter start. -/
def St.empty : St := ⟨[], [], [], []⟩

/-- The loop `for obj in prom_metrics_list: if obj.describe()[0].name ==
name: try obj.labels(**kw).set(v) except ValueError: log` — every matching
object is updated in place; a failing set logs `invalidCombination` and
moves on. -/
def setOnExisting (l : List GaugeObj) (name : String) (kw : LDict String)
    (v : Rat) (log : List LogMsg) : List GaugeObj × List LogMsg :=
  match l with
  | [] => ([], log)
  | obj :: rest =>
    if obj.name = name then
      match gaugeSet obj kw v with
      | Except.ok obj2 =>
        let r := setOnExisting rest name kw v log
        (obj2 :: r.1, r.2)
      | Except.error _ =>
        let r := setOnExisting rest name kw v (log ++ [LogMsg.invalidCombination])
        (obj :: r.1, r.2)
    else
      let r := setOnExisting rest name kw v log
      (obj :: r.1, r.2)

/-- `prometheus_metric_errors.labels(**kw).inc()` on the counter object named
`name` (the params dict holds the object itself; names are unique).  The
call is not wrapped in any `try`, so a label mismatch is an uncaught
`ValueError`. -/
def incOnCounters (l : List CounterObj) (name : String) (kw : LDict String) :
    List CounterObj × Option PyErr :=
  match l with
  | [] => ([], none)
  | c :: rest =>
    if c.name = name then
      match counterInc c kw with
      | Except.ok c2 => (c2 :: rest, none)
      | Except.error _ => (c :: rest, some PyErr.valueErr)
    else
      let r := incOnCounters rest name kw
      (c :: r.1, r.2)

/-- A Python literal value, as produced by a successful
`ast.literal_eval(output)`; for the claims only its shape and the numeric
payloads matter.  A string literal carries the result of a later
`float(...)` on it (`some v` when it spells a number, `none` when `float`
raises `ValueError`). -/
inductive PyLit where
  | num (v : Rat)
  | str (asFloat : Option Rat)
  | dict (entries : LDict Rat)
  | list
deriving DecidableEq, Repr

/-- The outcome of `ast.literal_eval(output)`: a literal, a `ValueError`
(malformed node, e.g. a bare identifier), or a `SyntaxError` (empty output
or text that does not tokenize, e.g. `foo bar`). -/
inductive EvalOutcome where
  | ok (v : PyLit)
  | valueErr
  | synErr
deriving DecidableEq, Repr

/-- `float(output)` on an already-evaluated literal: numbers convert,
numeric strings convert, other strings raise `ValueError`, lists (and any
other container) raise `TypeError`. -/
def pyFloat : PyLit → Except PyErr Rat
  | PyLit.num v => Except.ok v
  | PyLit.str (some v) => Except.ok v
  | PyLit.str none => Except.error PyErr.valueErr
  | PyLit.list => Except.error PyErr.typeErr
  | PyLit.dict _ => Except.error PyErr.typeErr

def DEFAULT_METRIC_HELP : String := "Generic metric HELP"

def DEFAULT_INTERVAL : Int := 600

/-- One record of the `scripts` list after config parsing (a Python dict;
`none` models an absent key).  `helpText` is the `HELP` key. -/
structure Item where
  script : Option String
  params : Option (List String)
  metric : Option String
  interval : Option Int
  helpText : Option String
  labels : LDict String
deriving DecidableEq, Repr

/-- The params dict built once per job by `generate_params_dict` and shared
(by reference, hence mutable `labels_dict`) across all scheduled invocations
of that job.  `metric` and `helpText` are the values `run_ext_script` reads
back out of the embedded `item`; `errName` stands for the reference to the
job's error-counter object. -/
structure Params where
  cmd : String
  metric : String
  helpText : String
  errName : String
  labels_list : List String
  labels_dict : LDict String
deriving DecidableEq, Repr

/-- `generate_params_dict(item)`.  Missing `item["metric"]` or
`item["script"]` raises an uncaught `KeyError`.  The `Counter(...)`
constructor is wrapped in `try ... except ValueError: pass`, so when the
error-counter name is already registered the local variable
`prometheus_metric_errors` is never bound and building the params dict
raises `UnboundLocalError`. -/
def generate_params_dict (item : Item) (st : St) :
    St × Except PyErr (Params × Int) :=
  match item.metric with
  | none => (st, Except.error PyErr.keyErr)
  | some metric_name =>
    let metric_errors := metric_name ++ "_errors_total"
    let script_interval := item.interval.getD DEFAULT_INTERVAL
    let metric_help := item.helpText.getD DEFAULT_METRIC_HELP
    match item.script with
    | none => (st, Except.error PyErr.keyErr)
    | some script =>
      let command := (item.params.getD []).foldl (fun c p => c ++ " " ++ p) script
      let labels_dict := aset item.labels "component" "main"
      let labels_list := akeys labels_dict
      if metric_errors ∈ st.registered then
        (st, Except.error PyErr.unboundLocalErr)
      else
        let c : CounterObj := ⟨metric_errors, metric_help, labels_list, []⟩
        let st2 : St := { st with
          registered := st.registered ++ [metric_errors],
          counters := st.counters ++ [c] }
        (st2, Except.ok
          (⟨command, metric_name, metric_help, metric_errors, labels_list, labels_dict⟩,
           script_interval))

/-- One iteration of the `for key in output.keys()` loop of
`run_ext_script`: mutate `labels_dict["component"] = key`, then
`try Gauge(...)`; on `ValueError` (name already registered) fall back to the
scan of `prom_metrics_list`; on a fresh name register it, try the first set,
and append the object to `prom_metrics_list` only when that set succeeded. -/
def processKey (metric helpT : String) (labels_list : List String) (v : Rat)
    (key : String) (labels_dict : LDict String) (st : St) :
    LDict String × St :=
  let ld := aset labels_dict "component" key
  if metric ∈ st.registered then
    let r := setOnExisting st.prom_metrics_list metric ld v st.log
    (ld, { st with prom_metrics_list := r.1, log := r.2 })
  else
    let obj : GaugeObj := ⟨metric, helpT, labels_list, []⟩
    let st2 : St := { st with registered := st.registered ++ [metric] }
    match gaugeSet obj ld v with
    | Except.ok obj2 =>
      (ld, { st2 with prom_metrics_list := st2.prom_metrics_list ++ [obj2] })
    | Except.error _ =>
      (ld, { st2 with log := st2.log ++ [LogMsg.labelsMismatch] })

/-- The whole `for key in output.keys()` loop; the written value is
`output[key]`. -/
def runDict (metric helpT : String) (labels_list : List String)
    (entries : LDict Rat) (labels_dict : LDict String) (st : St) :
    LDict String × St :=
  entries.foldl
    (fun acc kv =>
      processKey metric helpT labels_list ((aget entries kv.1).getD 0) kv.1 acc.1 acc.2)
    (labels_dict, st)

/-- `run_ext_script(**kwargs)` for one invocation.  `exit_code` and
`litEval` abstract the external command: its exit status and the outcome of
`ast.literal_eval` on its (newline-stripped) stdout.  Returns the global
state, the (possibly mutated) shared params dict, and the escaped exception
if any.  Faithful control flow:
non-zero exit logs and increments the error counter; on zero exit a
`SyntaxError` from `ast.literal_eval` escapes (only `ValueError` is caught);
a dict runs the per-key loop; anything else goes through `float(...)`,
whose `ValueError` is swallowed by a bare `pass` and whose `TypeError`
escapes; a scalar write instantiates the gauge or falls back to the
`prom_metrics_list` scan, and in the fresh-gauge path the object is appended
before the (unguarded) set. -/
def run_ext_script (exit_code : Int) (litEval : EvalOutcome) (p : Params)
    (st : St) : St × Params × Option PyErr :=
  if exit_code ≠ 0 then
    let st2 : St := { st with log := st.log ++ [LogMsg.cmdError] }
    let r := incOnCounters st2.counters p.errName p.labels_dict
    ({ st2 with counters := r.1 }, p, r.2)
  else
    match litEval with
    | EvalOutcome.synErr => (st, p, some PyErr.synErr)
    | EvalOutcome.valueErr =>
      let st2 : St := { st with log := st.log ++ [LogMsg.unsupportedOutput] }
      let r := incOnCounters st2.counters p.errName p.labels_dict
      ({ st2 with counters := r.1 }, p, r.2)
    | EvalOutcome.ok out =>
      match out with
      | PyLit.dict entries =>
        let r := runDict p.metric p.helpText p.labels_list entries p.labels_dict st
        (r.2, { p with labels_dict := r.1 }, none)
      | other =>
        match pyFloat other with
        | Except.error PyErr.valueErr => (st, p, none)
        | Except.error e => (st, p, some e)
        | Except.ok v =>
          if p.metric ∈ st.registered then
            let r := setOnExisting st.prom_metrics_list p.metric p.labels_dict v st.log
            ({ st with prom_metrics_list := r.1, log := r.2 }, p, none)
          else
            let obj : GaugeObj := ⟨p.metric, p.helpText, p.labels_list, []⟩
            let st2 : St := { st with registered := st.registered ++ [p.metric] }
            match gaugeSet obj p.labels_dict v with
            | Except.ok obj2 =>
              ({ st2 with prom_metrics_list := st2.prom_metrics_list ++ [obj2] }, p, none)
            | Except.error _ =>
              ({ st2 with prom_metrics_list := st2.prom_metrics_list ++ [obj] }, p,
               some PyErr.valueErr)

/-- One record of the raw `scripts` array of a config file, before label
merging. -/
structure RawScript where
  script : Option String
  params : Option (List String)
  metric : Option String
  interval : Option Int
  helpText : Option String
  labels : Option (LDict String)
deriving DecidableEq, Repr

/-- A parsed config file.  `scripts = none` collapses the three structural
failure branches of `parse_config_file` (no permission, invalid JSON,
missing or non-list `scripts` key), all of which log and return `[]`.
`global_labels` defaults to the empty dict. -/
structure ConfigFile where
  scripts : Option (List RawScript)
  global_labels : LDict String
deriving DecidableEq, Repr

/-- `labels = global_labels.copy(); labels.update(local_labels)`. -/
def mergedLabels (global_labels : LDict String) (s : RawScript) : LDict String :=
  (s.labels.getD []).foldl (fun acc kv => aset acc kv.1 kv.2) global_labels

/-- The per-script body of `parse_config_file`: merge the global labels
under the local ones, then rename a configured `component` label to
`user_defined_component` (pop first, then set), emitting a warning. -/
def mergeAndRename (global_labels : LDict String) (s : RawScript) :
    Item × List LogMsg :=
  let labels := mergedLabels global_labels s
  if (aget labels "component").isSome then
    let v := (aget labels "component").getD ""
    let labels2 := aset (apop labels "component") "user_defined_component" v
    (⟨s.script, s.params, s.metric, s.interval, s.helpText, labels2⟩,
     [LogMsg.componentRenamed])
  else
    (⟨s.script, s.params, s.metric, s.interval, s.helpText, labels⟩, [])

/-- `parse_config_file(f)`: structural failures log and yield no items;
otherwise every script record is label-merged and component-renamed in
order. -/
def parse_config_file (cfg : ConfigFile) : List Item × List LogMsg :=
  match cfg.scripts with
  | none => ([], [LogMsg.configStructureError])
  | some scripts_list =>
    scripts_list.foldl
      (fun acc s =>
        let r := mergeAndRename cfg.global_labels s
        (acc.1 ++ [r.1], acc.2 ++ r.2))
      ([], [])

/-- `parse_config_folder`: concatenate the items of every config file. -/
def parse_config_folder (files : List ConfigFile) : List Item × List LogMsg :=
  files.foldl
    (fun acc f =>
      let r := parse_config_file f
      (acc.1 ++ r.1, acc.2 ++ r.2))
    ([], [])

/-- The `for item in main_list` startup loop of `main`: run
`generate_params_dict` for each item in order and register it with the
scheduler.  An exception from `generate_params_dict` propagates out of
`main`, so jobs after the failing one are never scheduled. -/
def scheduleJobs (items : List Item) (st : St) :
    St × List (Params × Int) × Option PyErr :=
  match items with
  | [] => (st, [], none)
  | item :: rest =>
    let r := generate_params_dict item st
    match r.2 with
    | Except.error e => (r.1, [], some e)
    | Except.ok pi =>
      let r2 := scheduleJobs rest r.1
      (r2.1, pi :: r2.2.1, r2.2.2)

/-- The startup part of `main`, before the `while True` scheduler loop:
parse all config files, log when nothing was parsed, then schedule every
job.  The returned list is the set of scheduled jobs (with intervals);
`some e` means startup aborted with an uncaught exception. -/
def mainStartup (files : List ConfigFile) (st : St) :
    St × List (Params × Int) × Option PyErr :=
  let parsed := parse_config_folder files
  let st2 : St := { st with
    log := st.log ++ parsed.2 ++
      (if parsed.1.length = 0 then [LogMsg.noValidConfigs] else []) }
  scheduleJobs parsed.1 st2

/-- The value of the counter named `name` at the label-value tuple `key`
(0 when absent: a counter child that was never incremented). -/
def counterValue (st : St) (name : String) (key : List String) : Nat :=
  match st.counters.find? (fun c => c.name == name) with
  | none => 0
  | some c => (aget c.series key).getD 0

/-- The series of the gauge family named `name` in `prom_metrics_list`. -/
def gaugeSeries (st : St) (name : String) : List (List String × Rat) :=
  match st.prom_metrics_list.find? (fun g => g.name == name) with
  | none => []
  | some g => g.series

/-- The counter object after one increment through `labels` and `inc`: its
series gains 1 at the label tuple determined by the keyword dict `kw`
(specification shorthand used by the theorems below). -/
def counterBumped (c : CounterObj) (kw : LDict String) : CounterObj :=
  let key := labelValues c.labelNames kw
  { c with series := aset c.series key ((aget c.series key).getD 0 + 1) }

/-- The gauge object a fresh scalar write creates for a job: the job's
metric name, help text and schema, and the single written series
(specification shorthand). -/
def freshScalarGauge (p : Params) (v : Rat) : GaugeObj :=
  ⟨p.metric, p.helpText, p.labels_list, [(labelValues p.labels_list p.labels_dict, v)]⟩

/-- A gauge object after one successful `labels`-and-`set` write
(specification shorthand). -/
def gaugeWritten (g : GaugeObj) (kw : LDict String) (v : Rat) : GaugeObj :=
  { g with series := aset g.series (labelValues g.labelNames kw) v }

/-! Concrete configurations used by the example-based theorems below. -/

/-- A job with metric `m` and base label `job = x`. -/
def exItem : Item := ⟨some "s.sh", none, some "m", none, none, [("job", "x")]⟩

/-- The params dict `generate_params_dict` builds for `exItem`. -/
def exParams : Params :=
  ⟨"s.sh", "m", DEFAULT_METRIC_HELP, "m_errors_total",
   ["job", "component"], [("job", "x"), ("component", "main")]⟩

/-- The global state right after `exItem` was scheduled from a fresh start. -/
def exSt : St :=
  ⟨["m_errors_total"], [],
   [⟨"m_errors_total", DEFAULT_METRIC_HELP, ["job", "component"], []⟩], []⟩

/-- A second job that reuses metric name `m` with a different label schema
(`team` instead of `job`). -/
def teamParams : Params :=
  ⟨"t.sh", "m", DEFAULT_METRIC_HELP, "t_errors_total",
   ["team", "component"], [("team", "y"), ("component", "main")]⟩

/-- A state in which metric `m` is already owned by a family whose label
schema is `[z]`, different from `exParams`' schema. -/
def mismatchSt : St :=
  ⟨["m_errors_total", "m"],
   [⟨"m", DEFAULT_METRIC_HELP, ["z"], [(["w"], 9)]⟩],
   [⟨"m_errors_total", DEFAULT_METRIC_HELP, ["job", "component"], []⟩], []⟩

/-- Two configured jobs that declare the same metric name with different
label schemas. -/
def dupItemA : Item := ⟨some "a.sh", none, some "shared_metric", none, none, [("job", "x")]⟩

/-- Second declaration of `shared_metric`, schema `team` instead of `job`. -/
def dupItemB : Item := ⟨some "b.sh", none, some "shared_metric", none, none, [("team", "y")]⟩

/-- A well-formed job record. -/
def wellFormedItem1 : Item := ⟨some "g.sh", none, some "m_one", none, none, []⟩

/-- A job record missing the required `metric` field. -/
def missingMetricItem : Item := ⟨some "b.sh", none, none, none, none, []⟩

/-- Another well-formed job record, listed after the broken one. -/
def wellFormedItem2 : Item := ⟨some "h.sh", none, some "m_two", none, none, []⟩

/-- A job whose metric name is `foo`: its error counter takes the name
`foo_errors_total` in the shared registry. -/
def shadowedJob : Item := ⟨some "b.sh", none, some "foo", none, none, []⟩

/-- A job whose metric name `foo_errors_total` collides with `shadowedJob`'s
error-counter name. -/
def shadowingJob : Item :=
  ⟨some "a.sh", none, some "foo_errors_total", none, none, [("job", "x")]⟩

/-- The family owning metric `m` after a first scalar write of 1 by the
example job. -/
def exGauge : GaugeObj :=
  ⟨"m", DEFAULT_METRIC_HELP, ["job", "component"], [(["x", "main"], 1)]⟩

/-- The global state after that first scalar write. -/
def matchSt : St :=
  ⟨["m_errors_total", "m"], [exGauge],
   [⟨"m_errors_total", DEFAULT_METRIC_HELP, ["job", "component"], []⟩], []⟩

/-- A raw config record that configures the reserved label key `component`
with value `orig`. -/
def exRenScript : RawScript :=
  ⟨some "r.sh", none, some "mm", none, none, some [("component", "orig")]⟩

/-- The params dict the startup loop builds for `shadowingJob`. -/
def shadowParams : Params :=
  ⟨"a.sh", "foo_errors_total", DEFAULT_METRIC_HELP, "foo_errors_total_errors_total",
   ["job", "component"], [("job", "x"), ("component", "main")]⟩

/-- The global state after scheduling `shadowedJob` then `shadowingJob`. -/
def shadowSt : St := (scheduleJobs [shadowedJob, shadowingJob] St.empty).1

end PromExporter

namespace PromExporter

/-! Theorems. -/

/-! Association-list lemmas. -/

/-- In-place update of key `k2` leaves every other key's lookup unchanged. -/
theorem aget_map_set_ne {α : Type} (d : LDict α) (k2 : String) (v : α)
    (k : String) (hne : k ≠ k2) :
    aget (d.map (fun p => if p.1 = k2 then (k2, v) else p)) k = aget d k := by
  have hk2k : ¬ (k2 = k) := fun h => hne h.symm
  induction d with
  | nil => rfl
  | cons p rest ih =>
    simp only [List.map_cons]
    by_cases h1 : p.1 = k2
    · rw [if_pos h1]
      have hpk : ¬ (p.1 = k) := by rw [h1]; exact hk2k
      show (if k2 = k then some v else _) = _
      rw [if_neg hk2k, ih]
      show _ = if p.1 = k then some p.2 else aget rest k
      rw [if_neg hpk]
    · rw [if_neg h1]
      show (if p.1 = k then some p.2 else _) =
        (if p.1 = k then some p.2 else aget rest k)
      by_cases h2 : p.1 = k
      · rw [if_pos h2, if_pos h2]
      · rw [if_neg h2, if_neg h2, ih]

/-- In-place update of key `k2` rewrites its lookup when present. -/
theorem aget_map_set_self {α : Type} (d : LDict α) (k2 : String) (v : α) :
    aget (d.map (fun p => if p.1 = k2 then (k2, v) else p)) k2 =
      (aget d k2).map (fun _ => v) := by
  induction d with
  | nil => rfl
  | cons p rest ih =>
    simp only [List.map_cons]
    by_cases h1 : p.1 = k2
    · rw [if_pos h1]
      show (if k2 = k2 then some v else _) = _
      rw [if_pos rfl]
      show _ = ((if p.1 = k2 then some p.2 else aget rest k2).map fun _ => v)
      rw [if_pos h1]
      rfl
    · rw [if_neg h1]
      show (if p.1 = k2 then some p.2 else _) = _
      rw [if_neg h1, ih]
      show _ = ((if p.1 = k2 then some p.2 else aget rest k2).map fun _ => v)
      rw [if_neg h1]

/-- Lookup in an appended list falls through a missing prefix. -/
theorem aget_append_of_none {α : Type} (d1 d2 : LDict α) (k : String)
    (h : aget d1 k = none) : aget (d1 ++ d2) k = aget d2 k := by
  induction d1 with
  | nil => rfl
  | cons p rest ih =>
    by_cases h1 : p.1 = k
    · simp [aget, h1] at h
    · simp only [aget, h1, if_neg h1] at h
      show (if p.1 = k then some p.2 else _) = _
      rw [if_neg h1]
      exact ih h

/-- Lookup in an appended list is resolved by the prefix when present. -/
theorem aget_append_of_some {α : Type} (d1 d2 : LDict α) (k : String) (v : α)
    (h : aget d1 k = some v) : aget (d1 ++ d2) k = some v := by
  induction d1 with
  | nil => simp [aget] at h
  | cons p rest ih =>
    rw [show aget (p :: rest) k = if p.1 = k then some p.2 else aget rest k from rfl] at h
    show (if p.1 = k then some p.2 else aget (rest ++ d2) k) = some v
    by_cases h1 : p.1 = k
    · rw [if_pos h1] at h ⊢; exact h
    · rw [if_neg h1] at h ⊢; exact ih h

/-- `d[k] = v` makes `d[k]` read back `v`. -/
theorem aget_aset_self {α : Type} (d : LDict α) (k : String) (v : α) :
    aget (aset d k v) k = some v := by
  unfold aset
  by_cases hp : (aget d k).isSome
  · rw [if_pos hp, aget_map_set_self]
    obtain ⟨w, hw⟩ := Option.isSome_iff_exists.mp hp
    rw [hw]; rfl
  · rw [if_neg hp]
    have h0 : aget d k = none := Option.not_isSome_iff_eq_none.mp hp
    rw [aget_append_of_none _ _ _ h0]
    simp [aget]

/-- `d[k2] = v` leaves every other key's lookup alone. -/
theorem aget_aset_ne {α : Type} (d : LDict α) (k2 : String) (v : α)
    (k : String) (hne : k ≠ k2) :
    aget (aset d k2 v) k = aget d k := by
  unfold aset
  by_cases hp : (aget d k2).isSome
  · rw [if_pos hp, aget_map_set_ne _ _ _ _ hne]
  · rw [if_neg hp]
    cases h : aget d k with
    | some w => exact aget_append_of_some _ _ _ _ h
    | none =>
      rw [aget_append_of_none _ _ _ h]
      have hk2k : ¬ (k2 = k) := fun hh => hne hh.symm
      simp [aget, hk2k]

/-- In-place update does not change the key sequence. -/
theorem akeys_map_set {α : Type} (d : LDict α) (k2 : String) (v : α) :
    akeys (d.map (fun p => if p.1 = k2 then (k2, v) else p)) = akeys d := by
  unfold akeys
  rw [List.map_map]
  apply List.map_congr_left
  intro p _
  by_cases h1 : p.1 = k2
  · simp [Function.comp, h1]
  · simp [Function.comp, h1]

/-- Setting an existing key keeps the key sequence. -/
theorem akeys_aset_of_isSome {α : Type} (d : LDict α) (k : String) (v : α)
    (h : (aget d k).isSome) : akeys (aset d k v) = akeys d := by
  unfold aset
  rw [if_pos h, akeys_map_set]

/-- Setting a fresh key appends it to the key sequence. -/
theorem akeys_aset_of_none {α : Type} (d : LDict α) (k : String) (v : α)
    (h : aget d k = none) : akeys (aset d k v) = akeys d ++ [k] := by
  unfold aset
  rw [if_neg (by rw [h]; exact Bool.false_ne_true)]
  simp [akeys]

/-- `d.pop(k)` removes key `k`. -/
theorem aget_apop_self {α : Type} (d : LDict α) (k : String) :
    aget (apop d k) k = none := by
  induction d with
  | nil => rfl
  | cons p rest ih =>
    by_cases h1 : p.1 = k
    · simp only [apop, if_pos h1]
      exact ih
    · simp only [apop, if_neg h1]
      show (if p.1 = k then some p.2 else _) = none
      rw [if_neg h1]
      exact ih

/-- `d.pop(k2)` leaves other keys' lookups alone. -/
theorem aget_apop_ne {α : Type} (d : LDict α) (k2 : String)
    (k : String) (hne : k ≠ k2) :
    aget (apop d k2) k = aget d k := by
  induction d with
  | nil => rfl
  | cons p rest ih =>
    by_cases h1 : p.1 = k2
    · have hpk : ¬ (p.1 = k) := by rw [h1]; exact fun hh => hne hh.symm
      simp only [apop, if_pos h1]
      rw [ih]
      show _ = if p.1 = k then some p.2 else aget rest k
      rw [if_neg hpk]
    · simp only [apop, if_neg h1]
      show (if p.1 = k then some p.2 else _) =
        (if p.1 = k then some p.2 else aget rest k)
      by_cases h2 : p.1 = k
      · rw [if_pos h2, if_pos h2]
      · rw [if_neg h2, if_neg h2, ih]

/-- Looking a member key up in a list zipped with its own image. -/
theorem aget_zip_map (l : List String) (f : String → String) (k : String)
    (hk : k ∈ l) :
    aget (l.zip (l.map f)) k = some (f k) := by
  induction l with
  | nil => cases hk
  | cons a t ih =>
    simp only [List.map_cons, List.zip_cons_cons]
    by_cases h : a = k
    · subst h
      show (if a = a then some (f a) else _) = some (f a)
      rw [if_pos rfl]
    · have ht : k ∈ t := by
        cases hk with
        | head => exact absurd rfl h
        | tail _ hm => exact hm
      show (if a = k then some (f a) else aget (t.zip (t.map f)) k) = some (f k)
      rw [if_neg h]
      exact ih ht

/-- Claim C1: the claim says that when two jobs declare the same metric name
with different label schemas the later declaration is rejected, the earlier
schema persists, and no job or registry error — including a registration
conflict of the per-job error counter — halts the scheduler loop or aborts
startup.  The code violates this: the second `generate_params_dict` call
hits the duplicate registration of the error counter
`shared_metric_errors_total`, the `except ValueError: pass` leaves the local
`prometheus_metric_errors` unbound, and building the params dict raises
`UnboundLocalError`, aborting the startup loop with only the first job
scheduled; the scheduler loop is never entered.  This theorem evaluates the
embedded code at that failing input. -/
theorem C1_registration_conflict_aborts_startup :
    (scheduleJobs [dupItemA, dupItemB] St.empty).2.2 = some PyErr.unboundLocalErr ∧
    (scheduleJobs [dupItemA, dupItemB] St.empty).2.1.length = 1 := by
  decide

/-- Claim C2, counterexample: a configured job record missing the required
`metric` field is not skipped — `generate_params_dict` raises `KeyError`,
the startup loop aborts, and the remaining well-formed job
`wellFormedItem2` is never scheduled (only the one job before the broken
record is). -/
theorem C2_missing_field_aborts_startup :
    (scheduleJobs [wellFormedItem1, missingMetricItem, wellFormedItem2] St.empty).2.2 =
      some PyErr.keyErr ∧
    (scheduleJobs [wellFormedItem1, missingMetricItem, wellFormedItem2] St.empty).2.1.length = 1 := by
  decide

/-- Claim C2 (amended): a job record missing a required field (metric name
or script path) makes `generate_params_dict` raise an uncaught `KeyError`;
the job is not skipped and startup aborts at that record. -/
theorem C2_missing_required_field_keyerror (item : Item) (st : St)
    (h : item.metric = none ∨ item.script = none) :
    (generate_params_dict item st).2 = Except.error PyErr.keyErr := by
  cases hm : item.metric with
  | none => simp [generate_params_dict, hm]
  | some m =>
    have hs : item.script = none := by
      rcases h with h | h
      · rw [hm] at h; cases h
      · exact h
    simp [generate_params_dict, hm, hs]

/-- Witness for `C2_missing_required_field_keyerror` at a concrete record
missing its metric name. -/
theorem C2_missing_required_field_keyerror_witness :
    (generate_params_dict missingMetricItem St.empty).2 = Except.error PyErr.keyErr :=
  C2_missing_required_field_keyerror missingMetricItem St.empty (Or.inl rfl)

/-- Claim C3: the claim says every zero-exit invocation whose stdout is not
decodable as a number or flat mapping — including plain strings, lists and
empty output — increments the job's error counter exactly once, performs no
gauge write and stops normally.  The code violates this on three of the
named inputs (the state `exSt` used here is exactly the one startup builds
for `exItem`, as the first conjunct shows): empty stdout makes
`ast.literal_eval` raise `SyntaxError`, which the `except ValueError`
handler does not catch, so the exception escapes and the counter is never
incremented; stdout that is a quoted string literal evaluates to a `str`,
whose `float()` `ValueError` is swallowed by a bare `pass` — no increment,
no log, nothing; stdout that is a list literal reaches `float()` and raises
an uncaught `TypeError`.  In each case the returned state is unchanged:
no counter increment at all. -/
theorem C3_unsupported_output_bypasses_counter :
    generate_params_dict exItem St.empty = (exSt, Except.ok (exParams, 600)) ∧
    run_ext_script 0 EvalOutcome.synErr exParams exSt = (exSt, exParams, some PyErr.synErr) ∧
    run_ext_script 0 (EvalOutcome.ok (PyLit.str none)) exParams exSt = (exSt, exParams, none) ∧
    run_ext_script 0 (EvalOutcome.ok PyLit.list) exParams exSt =
      (exSt, exParams, some PyErr.typeErr) := by
  decide

/-- Claim C4, counterexample: the claim says a non-zero-exit invocation
increments the error counter with label set base labels plus
component = "main".  But `labels_dict` is shared by reference across
invocations of a job, and a ComponentMap run leaves `component` at the last
map key: after a first run with output mapping key `a`, a second failing run
increments the counter observation labeled `component = a`, and the
`component = main` observation stays at 0. -/
theorem C4_error_label_stale_after_component_map :
    counterValue
      (run_ext_script 1 (EvalOutcome.ok (PyLit.num 0))
        (run_ext_script 0 (EvalOutcome.ok (PyLit.dict [("a", 1)])) exParams exSt).2.1
        (run_ext_script 0 (EvalOutcome.ok (PyLit.dict [("a", 1)])) exParams exSt).1).1
      "m_errors_total" ["x", "a"] = 1 ∧
    counterValue
      (run_ext_script 1 (EvalOutcome.ok (PyLit.num 0))
        (run_ext_script 0 (EvalOutcome.ok (PyLit.dict [("a", 1)])) exParams exSt).2.1
        (run_ext_script 0 (EvalOutcome.ok (PyLit.dict [("a", 1)])) exParams exSt).1).1
      "m_errors_total" ["x", "main"] = 0 := by
  decide

/-- Claim C5, counterexample: the claim says a Scalar(v) invocation writes
gauge value v to the series (metric, base labels with component = "main")
regardless of what earlier invocations produced.  After an earlier
ComponentMap run of the same job, the shared `labels_dict` still maps
`component` to the last map key `a`, so a scalar run writes to the
`component = a` series: afterwards the family's only series is
`(job = x, component = a) = 5`, and no `component = main` series exists. -/
theorem C5_scalar_written_to_stale_series :
    gaugeSeries
      (run_ext_script 0 (EvalOutcome.ok (PyLit.num 5))
        (run_ext_script 0 (EvalOutcome.ok (PyLit.dict [("a", 1)])) exParams exSt).2.1
        (run_ext_script 0 (EvalOutcome.ok (PyLit.dict [("a", 1)])) exParams exSt).1).1
      "m" = [(["x", "a"], 5)] := by
  decide

/-- Claim C6: a ComponentMap output writes each key independently: command
output mapping a to 1 and b to 5/2 on the fresh metric `m` with base labels
job = x yields exactly the two series (m, job x, component a) = 1 and
(m, job x, component b) = 5/2 in a single family and nothing else; and when
the metric name is owned by a family whose frozen schema (here `[z]`)
rejects the writes, every key is still processed — each is dropped with its
own logged error, the family is untouched, and no exception escapes. -/
theorem C6_component_map_writes :
    (run_ext_script 0 (EvalOutcome.ok (PyLit.dict [("a", 1), ("b", mkRat 5 2)])) exParams exSt).2.2 =
      none ∧
    gaugeSeries
      (run_ext_script 0 (EvalOutcome.ok (PyLit.dict [("a", 1), ("b", mkRat 5 2)])) exParams exSt).1
      "m" = [(["x", "a"], 1), (["x", "b"], mkRat 5 2)] ∧
    (run_ext_script 0 (EvalOutcome.ok (PyLit.dict [("a", 1), ("b", mkRat 5 2)])) exParams exSt).1.prom_metrics_list.length = 1 ∧
    (run_ext_script 0 (EvalOutcome.ok (PyLit.dict [("a", 1), ("b", mkRat 5 2)])) exParams exSt).1.log = [] ∧
    (run_ext_script 0 (EvalOutcome.ok (PyLit.dict [("a", 1), ("b", 2)])) exParams mismatchSt).1.log =
      [LogMsg.invalidCombination, LogMsg.invalidCombination] ∧
    (run_ext_script 0 (EvalOutcome.ok (PyLit.dict [("a", 1), ("b", 2)])) exParams mismatchSt).1.prom_metrics_list =
      mismatchSt.prom_metrics_list ∧
    (run_ext_script 0 (EvalOutcome.ok (PyLit.dict [("a", 1), ("b", 2)])) exParams mismatchSt).2.2 =
      none := by
  decide

/-- Claim C7: declaring a metric family is idempotent in the sense of the
code's try-instantiate-then-reuse pattern.  A first scalar write creates the
family for metric `m` with schema [job, component]; a second write with the
identical (name, labelNames) finds and updates the very same family object —
`prom_metrics_list` still holds exactly that one object, with the schema
fixed at first declaration and the value last-write-wins; a write through a
second declaration of `m` with the different schema [team, component] fails
without mutating anything — the error is logged, and the first family's
schema and series persist unchanged. -/
theorem C7_first_declaration_wins :
    (run_ext_script 0 (EvalOutcome.ok (PyLit.num 1)) exParams exSt).1.prom_metrics_list =
      [⟨"m", DEFAULT_METRIC_HELP, ["job", "component"], [(["x", "main"], 1)]⟩] ∧
    (run_ext_script 0 (EvalOutcome.ok (PyLit.num 2)) exParams
      (run_ext_script 0 (EvalOutcome.ok (PyLit.num 1)) exParams exSt).1).1.prom_metrics_list =
      [⟨"m", DEFAULT_METRIC_HELP, ["job", "component"], [(["x", "main"], 2)]⟩] ∧
    (run_ext_script 0 (EvalOutcome.ok (PyLit.num 7)) teamParams
      (run_ext_script 0 (EvalOutcome.ok (PyLit.num 2)) exParams
        (run_ext_script 0 (EvalOutcome.ok (PyLit.num 1)) exParams exSt).1).1).1.prom_metrics_list =
      [⟨"m", DEFAULT_METRIC_HELP, ["job", "component"], [(["x", "main"], 2)]⟩] ∧
    (run_ext_script 0 (EvalOutcome.ok (PyLit.num 7)) teamParams
      (run_ext_script 0 (EvalOutcome.ok (PyLit.num 2)) exParams
        (run_ext_script 0 (EvalOutcome.ok (PyLit.num 1)) exParams exSt).1).1).1.log =
      [LogMsg.invalidCombination] ∧
    (run_ext_script 0 (EvalOutcome.ok (PyLit.num 7)) teamParams
      (run_ext_script 0 (EvalOutcome.ok (PyLit.num 2)) exParams
        (run_ext_script 0 (EvalOutcome.ok (PyLit.num 1)) exParams exSt).1).1).2.2 = none := by
  decide

/-- Claim C8, counterexample: the claim says a write whose label-key set
differs from the target family's frozen schema is never dropped silently.
But when a job's metric name is already registered by a family that is not
in `prom_metrics_list` — here `shadowingJob`'s metric `foo_errors_total` is
taken by `shadowedJob`'s error counter, whose schema [component] differs
from the write's key set [job, component] — the gauge constructor's
`ValueError` sends the code to the `prom_metrics_list` scan, which finds
nothing: the write is dropped with no log entry and no state change at all.
The startup phase shown in the first conjuncts is exactly how this state
arises from an ordinary two-job configuration. -/
theorem C8_write_dropped_silently :
    (scheduleJobs [shadowedJob, shadowingJob] St.empty).2.2 = none ∧
    ((scheduleJobs [shadowedJob, shadowingJob] St.empty).2.1.map Prod.fst).getLast? =
      some shadowParams ∧
    (shadowSt.counters.find? (fun c => c.name == "foo_errors_total")).map
      CounterObj.labelNames = some ["component"] ∧
    akeys shadowParams.labels_dict = ["job", "component"] ∧
    run_ext_script 0 (EvalOutcome.ok (PyLit.num 5)) shadowParams shadowSt =
      (shadowSt, shadowParams, none) := by
  decide


/-- Incrementing through the counter-object list: the first counter carrying
the target name receives the increment when the keyword names match its
schema; every other counter is untouched. -/
theorem incOnCounters_found (cs1 cs2 : List CounterObj) (c : CounterObj)
    (name : String) (kw : LDict String)
    (hpre : ∀ x ∈ cs1, x.name ≠ name) (hname : c.name = name)
    (hk : keysMatch (akeys kw) c.labelNames = true) :
    incOnCounters (cs1 ++ c :: cs2) name kw = (cs1 ++ counterBumped c kw :: cs2, none) := by
  have hc : counterInc c kw = Except.ok (counterBumped c kw) := by
    unfold counterInc counterBumped
    rw [if_pos hk]
  
  induction cs1 with
  | nil =>
    simp only [List.nil_append, incOnCounters]
    rw [if_pos hname, hc]
  | cons a t ih =>
    have ha : ¬ (a.name = name) := hpre a (List.mem_cons_self a t)
    simp only [List.cons_append, incOnCounters, List.append_eq]
    rw [if_neg ha, ih (fun x hx => hpre x (List.mem_cons_of_mem a hx))]

/-- Claim C4 (amended): for every invocation whose command exits with a
non-zero status, no gauge write occurs and the job's error counter receives
exactly one increment, at the label tuple drawn from the job's current
shared `labels_dict`; the tuple carries "main" at the `component` slot
exactly when that dict still maps `component` to "main" — which holds at a
job's first invocation but not after a ComponentMap run, which leaves the
last map key there (see the counterexample theorem). -/
theorem C4_nonzero_exit_single_increment (ec : Int) (lit : EvalOutcome)
    (p : Params) (st : St) (cs1 cs2 : List CounterObj) (c : CounterObj)
    (hec : ec ≠ 0)
    (hcs : st.counters = cs1 ++ c :: cs2)
    (hpre : ∀ x ∈ cs1, x.name ≠ p.errName)
    (hname : c.name = p.errName)
    (hk : keysMatch (akeys p.labels_dict) c.labelNames = true)
    (hmain : aget p.labels_dict "component" = some "main") :
    (run_ext_script ec lit p st).2.2 = none ∧
    (run_ext_script ec lit p st).1.prom_metrics_list = st.prom_metrics_list ∧
    (run_ext_script ec lit p st).1.registered = st.registered ∧
    (run_ext_script ec lit p st).1.log = st.log ++ [LogMsg.cmdError] ∧
    (run_ext_script ec lit p st).1.counters = cs1 ++ counterBumped c p.labels_dict :: cs2 ∧
    labelValues c.labelNames p.labels_dict =
      c.labelNames.map (fun n => if n = "component" then "main"
        else (aget p.labels_dict n).getD "") := by
  have key : incOnCounters st.counters p.errName p.labels_dict =
      (cs1 ++ counterBumped c p.labels_dict :: cs2, none) := by
    rw [hcs]
    exact incOnCounters_found cs1 cs2 c p.errName p.labels_dict hpre hname hk
  unfold run_ext_script
  rw [if_pos hec]
  refine ⟨?_, ?_, ?_, ?_, ?_, ?_⟩
  · simp [key]
  · simp [key]
  · simp [key]
  · simp [key]
  · simp [key]
  · unfold labelValues
    apply List.map_congr_left
    intro n _
    by_cases hn : n = "component"
    · rw [if_pos hn, hn, hmain]
      rfl
    · rw [if_neg hn]

/-- Witness for `C4_nonzero_exit_single_increment`: the first, still
unmutated invocation of the example job with exit status 1 ends without an
exception and logs the command error. -/
theorem C4_nonzero_exit_single_increment_witness :
    (run_ext_script 1 (EvalOutcome.ok (PyLit.num 0)) exParams exSt).2.2 = none ∧
    (run_ext_script 1 (EvalOutcome.ok (PyLit.num 0)) exParams exSt).1.log =
      exSt.log ++ [LogMsg.cmdError] :=
  ⟨(C4_nonzero_exit_single_increment 1 (EvalOutcome.ok (PyLit.num 0)) exParams exSt
      [] [] ⟨"m_errors_total", DEFAULT_METRIC_HELP, ["job", "component"], []⟩
      (by decide) rfl (fun x hx => absurd hx (List.not_mem_nil x)) rfl
      (by decide) (by decide)).1,
   (C4_nonzero_exit_single_increment 1 (EvalOutcome.ok (PyLit.num 0)) exParams exSt
      [] [] ⟨"m_errors_total", DEFAULT_METRIC_HELP, ["job", "component"], []⟩
      (by decide) rfl (fun x hx => absurd hx (List.not_mem_nil x)) rfl
      (by decide) (by decide)).2.2.2.1⟩

/-- Claim C5 (amended): an invocation whose stdout classifies as Scalar(v)
writes exactly one gauge value — v at (metric name, the label tuple drawn
from the job's current shared labels dict).  First conjunct: a fresh metric
name gets a new family with the job's schema holding exactly that one
series.  Second conjunct: an existing family with matching schema gets
exactly that one series overwritten (last write wins).  Third conjunct: the
written tuple carries "main" at the component slot precisely when the dict
still maps component to "main" — the original claim's "regardless of what
earlier invocations produced" fails because a ComponentMap run rewrites
that entry (see the counterexample theorem). -/
theorem C5_scalar_single_write (v : Rat) (p : Params) (st : St) (g : GaugeObj) :
    (p.metric ∉ st.registered →
      keysMatch (akeys p.labels_dict) p.labels_list = true →
      run_ext_script 0 (EvalOutcome.ok (PyLit.num v)) p st =
        ({ st with
            registered := st.registered ++ [p.metric],
            prom_metrics_list := st.prom_metrics_list ++ [freshScalarGauge p v] },
         p, none)) ∧
    (st.prom_metrics_list = [g] → g.name = p.metric → p.metric ∈ st.registered →
      keysMatch (akeys p.labels_dict) g.labelNames = true →
      run_ext_script 0 (EvalOutcome.ok (PyLit.num v)) p st =
        ({ st with prom_metrics_list := [gaugeWritten g p.labels_dict v] },
         p, none)) ∧
    (aget p.labels_dict "component" = some "main" → "component" ∈ p.labels_list →
      aget (p.labels_list.zip (labelValues p.labels_list p.labels_dict)) "component" =
        some "main") := by
  have h0 : ¬ ((0 : Int) ≠ 0) := fun h => h rfl
  refine ⟨?_, ?_, ?_⟩
  · intro hfresh hkm
    simp only [run_ext_script, if_neg h0, pyFloat]
    rw [if_neg hfresh]
    have hgs : gaugeSet ⟨p.metric, p.helpText, p.labels_list, []⟩ p.labels_dict v =
        Except.ok (freshScalarGauge p v) := by
      unfold gaugeSet freshScalarGauge
      rw [if_pos hkm]
      simp [aset, aget]
    rw [hgs]
  · intro hlist hname hreg hkm
    simp only [run_ext_script, if_neg h0, pyFloat]
    rw [if_pos hreg, hlist]
    have hgs : gaugeSet g p.labels_dict v = Except.ok (gaugeWritten g p.labels_dict v) := by
      unfold gaugeSet gaugeWritten
      rw [if_pos hkm]
    have hset : setOnExisting [g] p.metric p.labels_dict v st.log =
        ([gaugeWritten g p.labels_dict v], st.log) := by
      unfold setOnExisting
      rw [if_pos hname, hgs]
      rfl
    rw [hset]
  · intro hmain hmem
    show aget (p.labels_list.zip
      (p.labels_list.map (fun n => (aget p.labels_dict n).getD ""))) "component" =
        some "main"
    rw [aget_zip_map _ _ _ hmem, hmain]
    rfl

/-- Witness for `C5_scalar_single_write`: the example job's very first
scalar write (fresh metric), a second scalar write through the existing
matching family, and the component slot of the written tuple. -/
theorem C5_scalar_single_write_witness :
    run_ext_script 0 (EvalOutcome.ok (PyLit.num 5)) exParams exSt =
      ({ exSt with
          registered := exSt.registered ++ [exParams.metric],
          prom_metrics_list := exSt.prom_metrics_list ++ [freshScalarGauge exParams 5] },
       exParams, none) ∧
    run_ext_script 0 (EvalOutcome.ok (PyLit.num 7)) exParams matchSt =
      ({ matchSt with prom_metrics_list := [gaugeWritten exGauge exParams.labels_dict 7] },
       exParams, none) ∧
    aget (exParams.labels_list.zip
      (labelValues exParams.labels_list exParams.labels_dict)) "component" = some "main" :=
  ⟨(C5_scalar_single_write 5 exParams exSt exGauge).1 (by decide) (by decide),
   (C5_scalar_single_write 7 exParams matchSt exGauge).2.1 rfl rfl (by decide) (by decide),
   (C5_scalar_single_write 5 exParams exSt exGauge).2.2 (by decide) (by decide)⟩

/-- Every key of a ComponentMap is rejected, logged and skipped when the one
family owning the metric name refuses the label schema; the loop still
visits every key, accumulating one log line each, and only mutates the
shared labels dict. -/
theorem runDict_go_all_rejected (metric helpT : String) (ll : List String)
    (g : GaugeObj) (hname : g.name = metric) (entries : LDict Rat) :
    ∀ (l : LDict Rat) (ld : LDict String) (st : St),
      st.prom_metrics_list = [g] → metric ∈ st.registered →
      (aget ld "component").isSome = true →
      keysMatch (akeys ld) g.labelNames = false →
      l.foldl (fun acc kv =>
          processKey metric helpT ll ((aget entries kv.1).getD 0) kv.1 acc.1 acc.2)
        (ld, st) =
      (l.foldl (fun a kv => aset a "component" kv.1) ld,
       { st with log := st.log ++ List.replicate l.length LogMsg.invalidCombination }) := by
  intro l
  induction l with
  | nil =>
    intro ld st h1 h2 h3 h4
    simp [List.foldl]
  | cons kv rest ih =>
    intro ld st h1 h2 h3 h4
    simp only [List.foldl_cons]
    have hkm : keysMatch (akeys (aset ld "component" kv.1)) g.labelNames = false := by
      rw [akeys_aset_of_isSome _ _ _ h3]
      exact h4
    have hstep : processKey metric helpT ll ((aget entries kv.1).getD 0) kv.1 ld st =
        (aset ld "component" kv.1,
         { st with log := st.log ++ [LogMsg.invalidCombination] }) := by
      unfold processKey
      rw [if_pos h2, h1]
      have hgs : gaugeSet g (aset ld "component" kv.1) ((aget entries kv.1).getD 0) =
          Except.error () := by
        unfold gaugeSet
        rw [if_neg (by rw [hkm]; exact Bool.false_ne_true)]
      unfold setOnExisting
      rw [if_pos hname, hgs]
      rfl
    rw [hstep]
    rw [ih (aset ld "component" kv.1) ({ st with log := st.log ++ [LogMsg.invalidCombination] })
      (by simpa using h1) (by simpa using h2)
      (by rw [aget_aset_self]; rfl) hkm]
    simp [List.replicate_succ]

/-- Claim C8 (amended): a write whose label-key set differs from the frozen
schema of the gauge family recorded in `prom_metrics_list` under the metric
name is dropped AND logged — one `invalidCombination` log line per dropped
key — and the remaining keys of the same map (and, since the run ends
without an exception, other jobs) proceed unaffected; nothing else in the
registry changes.  (When the metric name is instead claimed by a family
absent from `prom_metrics_list`, the drop is silent — see the
counterexample theorem.) -/
theorem C8_mismatched_write_logged (entries : LDict Rat) (p : Params)
    (st : St) (g : GaugeObj)
    (hlist : st.prom_metrics_list = [g]) (hname : g.name = p.metric)
    (hreg : p.metric ∈ st.registered)
    (hcomp : (aget p.labels_dict "component").isSome = true)
    (hmm : keysMatch (akeys p.labels_dict) g.labelNames = false) :
    (run_ext_script 0 (EvalOutcome.ok (PyLit.dict entries)) p st).2.2 = none ∧
    (run_ext_script 0 (EvalOutcome.ok (PyLit.dict entries)) p st).1.prom_metrics_list =
      st.prom_metrics_list ∧
    (run_ext_script 0 (EvalOutcome.ok (PyLit.dict entries)) p st).1.counters = st.counters ∧
    (run_ext_script 0 (EvalOutcome.ok (PyLit.dict entries)) p st).1.registered =
      st.registered ∧
    (run_ext_script 0 (EvalOutcome.ok (PyLit.dict entries)) p st).1.log =
      st.log ++ List.replicate entries.length LogMsg.invalidCombination := by
  have h0 : ¬ ((0 : Int) ≠ 0) := fun h => h rfl
  have key : runDict p.metric p.helpText p.labels_list entries p.labels_dict st =
      (entries.foldl (fun a kv => aset a "component" kv.1) p.labels_dict,
       { st with log := st.log ++ List.replicate entries.length LogMsg.invalidCombination }) := by
    unfold runDict
    exact runDict_go_all_rejected p.metric p.helpText p.labels_list g hname entries
      entries p.labels_dict st hlist hreg hcomp hmm
  simp only [run_ext_script, if_neg h0]
  rw [key, hlist]
  refine ⟨by trivial, by trivial, by trivial, by trivial, by trivial⟩

/-- Witness for `C8_mismatched_write_logged`: the example job's two-key map
against the family with foreign schema `[z]`. -/
theorem C8_mismatched_write_logged_witness :
    (run_ext_script 0 (EvalOutcome.ok (PyLit.dict [("a", 1), ("b", 2)])) exParams
      mismatchSt).1.log =
      mismatchSt.log ++ List.replicate 2 LogMsg.invalidCombination ∧
    (run_ext_script 0 (EvalOutcome.ok (PyLit.dict [("a", 1), ("b", 2)])) exParams
      mismatchSt).1.counters = mismatchSt.counters :=
  ⟨(C8_mismatched_write_logged [("a", 1), ("b", 2)] exParams mismatchSt
      ⟨"m", DEFAULT_METRIC_HELP, ["z"], [(["w"], 9)]⟩
      rfl rfl (by decide) (by decide) (by decide)).2.2.2.2,
   (C8_mismatched_write_logged [("a", 1), ("b", 2)] exParams mismatchSt
      ⟨"m", DEFAULT_METRIC_HELP, ["z"], [(["w"], 9)]⟩
      rfl rfl (by decide) (by decide) (by decide)).2.2.1⟩

/-- Claim C9: a configured base label keyed `component` is renamed to
`user_defined_component` with its original value preserved and a warning
logged, inside config parsing; since parsing precedes scheduling, every
scheduled invocation of such a job already carries the renamed label (and
the reserved `component` entry freshly set to "main"). -/
theorem C9_component_label_renamed (gl : LDict String) (s : RawScript)
    (v : String) (m sc : String) (st : St)
    (hv : aget (mergedLabels gl s) "component" = some v)
    (hm : s.metric = some m) (hsc : s.script = some sc)
    (hfresh : (m ++ "_errors_total") ∉ st.registered) :
    aget (mergeAndRename gl s).1.labels "component" = none ∧
    aget (mergeAndRename gl s).1.labels "user_defined_component" = some v ∧
    (mergeAndRename gl s).2 = [LogMsg.componentRenamed] ∧
    (∃ p i, (generate_params_dict (mergeAndRename gl s).1 st).2 = Except.ok (p, i) ∧
      aget p.labels_dict "user_defined_component" = some v ∧
      aget p.labels_dict "component" = some "main") := by
  have hren : mergeAndRename gl s =
      (⟨s.script, s.params, s.metric, s.interval, s.helpText,
        aset (apop (mergedLabels gl s) "component") "user_defined_component" v⟩,
       [LogMsg.componentRenamed]) := by
    unfold mergeAndRename
    rw [if_pos (by rw [hv]; rfl), hv]
    rfl
  refine ⟨?_, ?_, ?_, ?_⟩
  · rw [hren]
    show aget (aset (apop (mergedLabels gl s) "component") "user_defined_component" v)
      "component" = none
    rw [aget_aset_ne _ _ _ _ (by decide), aget_apop_self]
  · rw [hren]
    show aget (aset (apop (mergedLabels gl s) "component") "user_defined_component" v)
      "user_defined_component" = some v
    rw [aget_aset_self]
  · rw [hren]
  · rw [hren]
    simp only [generate_params_dict, hm, hsc]
    rw [if_neg hfresh]
    refine ⟨_, _, rfl, ?_, ?_⟩
    · rw [aget_aset_ne _ _ _ _ (by decide), aget_aset_self]
    · rw [aget_aset_self]

/-- Witness for `C9_component_label_renamed` at a concrete config record
whose labels carry `component = orig`. -/
theorem C9_component_label_renamed_witness :
    aget (mergeAndRename [] exRenScript).1.labels "component" = none ∧
    aget (mergeAndRename [] exRenScript).1.labels "user_defined_component" = some "orig" ∧
    (mergeAndRename [] exRenScript).2 = [LogMsg.componentRenamed] ∧
    (∃ p i, (generate_params_dict (mergeAndRename [] exRenScript).1 St.empty).2 =
        Except.ok (p, i) ∧
      aget p.labels_dict "user_defined_component" = some "orig" ∧
      aget p.labels_dict "component" = some "main") :=
  C9_component_label_renamed [] exRenScript "orig" "mm" "r.sh" St.empty
    (by decide) rfl rfl (by decide)

/-- Claim C10: for every job with metric name M and a present script path,
startup declares the job's error-counter family under the name
M ++ "_errors_total", with label-name set equal to the job's base label
keys plus "component", and with the job's HELP text (or the generic
default) as its help string. -/
theorem C10_error_counter_family (item : Item) (st : St) (m : String)
    (hm : item.metric = some m)
    (hs : item.script.isSome = true)
    (hfresh : (m ++ "_errors_total") ∉ st.registered)
    (hnc : aget item.labels "component" = none) :
    (∃ p i, (generate_params_dict item st).2 = Except.ok (p, i) ∧
      p.errName = m ++ "_errors_total" ∧
      p.helpText = item.helpText.getD DEFAULT_METRIC_HELP) ∧
    (generate_params_dict item st).1.counters = st.counters ++
      [⟨m ++ "_errors_total", item.helpText.getD DEFAULT_METRIC_HELP,
        akeys item.labels ++ ["component"], []⟩] ∧
    (generate_params_dict item st).1.registered =
      st.registered ++ [m ++ "_errors_total"] := by
  obtain ⟨sc, hsc⟩ := Option.isSome_iff_exists.mp hs
  have hkeys : akeys (aset item.labels "component" "main") =
      akeys item.labels ++ ["component"] := akeys_aset_of_none _ _ _ hnc
  refine ⟨?_, ?_, ?_⟩
  · simp only [generate_params_dict, hm, hsc]
    rw [if_neg hfresh]
    exact ⟨_, _, rfl, rfl, rfl⟩
  · simp only [generate_params_dict, hm, hsc]
    rw [if_neg hfresh]
    show st.counters ++ [⟨m ++ "_errors_total", item.helpText.getD DEFAULT_METRIC_HELP,
      akeys (aset item.labels "component" "main"), []⟩] = _
    rw [hkeys]
  · simp only [generate_params_dict, hm, hsc]
    rw [if_neg hfresh]

/-- Witness for `C10_error_counter_family` at the example job. -/
theorem C10_error_counter_family_witness :
    (generate_params_dict exItem St.empty).1.counters = St.empty.counters ++
      [⟨"m" ++ "_errors_total", exItem.helpText.getD DEFAULT_METRIC_HELP,
        akeys exItem.labels ++ ["component"], []⟩] ∧
    (generate_params_dict exItem St.empty).1.registered =
      St.empty.registered ++ ["m" ++ "_errors_total"] :=
  ⟨(C10_error_counter_family exItem St.empty "m" rfl rfl (by decide) (by decide)).2.1,
   (C10_error_counter_family exItem St.empty "m" rfl rfl (by decide) (by decide)).2.2⟩

end PromExporter

